import Mathlib

/-!
Verification of the ninja build-file generator scripts under `build/ninja/`
(platform.py, toolchain.py, clang.py, gcc.py, msvc.py, android.py,
generator.py).  The Python code is shallowly embedded: strings are `String`,
Python lists are `List`, dictionaries are association lists, the mutable
writer and toolchain objects are explicit state records, and fatal failures
(`sys.exit`, uncaught `NameError` / `KeyError` / `TypeError`) are `Except`.
Paths are the POSIX-style relative paths the generator manipulates, so
`os.path.join` / `os.path.split` / `os.path.normpath` are modelled on the
component lists obtained by splitting at the slash character.
-/

/-! ## String and path primitives -/

/-- `p.isPrefixOf s` on character lists: model of Python `str.startswith`. -/
def strStartsWith (s p : String) : Bool := p.data.isPrefixOf s.data

/-- Model of Python `str.endswith`. -/
def strEndsWith (s p : String) : Bool := p.data.isSuffixOf s.data

/-- Substring test on character lists. -/
def listContainsSub (needle : List Char) : List Char → Bool
  | [] => needle.isEmpty
  | x :: xs => needle.isPrefixOf (x :: xs) || listContainsSub needle xs

/-- Model of the Python membership test `needle in hay` on strings. -/
def containsSub (hay needle : String) : Bool := listContainsSub needle.data hay.data

/-- Split a character list at every occurrence of `c`. -/
def splitChar (c : Char) : List Char → List (List Char)
  | [] => [[]]
  | x :: xs =>
    match splitChar c xs with
    | [] => [[]]
    | h :: t => if x = c then [] :: h :: t else (x :: h) :: t

/-- Components of a slash-separated path. -/
def pathComponents (s : String) : List String :=
  (splitChar '/' s.data).map (fun l => String.mk l)

/-- Rebuild a slash-separated path from its components. -/
def joinComponents (l : List String) : String :=
  String.mk (List.intercalate ['/'] (l.map String.data))

/-- Model of `os.path.join` for two operands on POSIX-style paths. -/
def ospJoin (a b : String) : String :=
  if strStartsWith b "/" then b
  else if a = "" then b
  else if strEndsWith a "/" then a ++ b
  else a ++ "/" ++ b

/-- Model of `os.path.split` on POSIX-style relative paths: split at the
last slash; a path with no slash has an empty head. -/
def ospSplit (s : String) : String × String :=
  match pathComponents s with
  | [] => ("", s)
  | [x] => ("", x)
  | comps => (joinComponents comps.dropLast, comps.getLastD "")

/-- Model of `os.path.normpath` for the relative POSIX-style paths the
generator manipulates: drop empty and dot components and resolve `..`. -/
def normpath (s : String) : String :=
  let isAbs := strStartsWith s "/"
  let comps := (pathComponents s).foldl
    (fun acc c =>
      if c = "" || c = "." then acc
      else if c = ".." then
        if acc ≠ [] ∧ acc.getLastD "" ≠ ".." then acc.dropLast
        else if isAbs then acc else acc ++ [c]
      else acc ++ [c]) []
  let body := joinComponents comps
  if isAbs then "/" ++ body else if body = "" then "." else body

/-! ## platform.py -/

/-- `supported_platforms` from platform.py. -/
def supported_platforms : List String :=
  ["windows", "linux", "macos", "bsd", "ios", "android", "raspberrypi", "pnacl", "tizen"]

/-- The classification cascade of `Platform.__init__` applied to a raw
platform identifier string: the stored tag after construction. -/
def platformInit (raw : String) : String :=
  if strStartsWith raw "linux" then "linux"
  else if strStartsWith raw "darwin" then "macos"
  else if strStartsWith raw "macos" then "macos"
  else if strStartsWith raw "win" then "windows"
  else if containsSub raw "bsd" then "bsd"
  else if strStartsWith raw "ios" then "ios"
  else if strStartsWith raw "android" then "android"
  else if strStartsWith raw "raspberry" then "raspberrypi"
  else if strStartsWith raw "pnacl" then "pnacl"
  else if strStartsWith raw "tizen" then "tizen"
  else raw

/-- `Platform.__init__` including the `None` case, which substitutes
`sys.platform` before classifying. -/
def platformInitOpt (sysPlatform : String) : Option String → String
  | none => platformInit sysPlatform
  | some raw => platformInit raw

/-- `Platform.is_linux`. -/
def is_linux (tag : String) : Bool := tag = "linux"

/-- `Platform.is_windows`. -/
def is_windows (tag : String) : Bool := tag = "windows"

/-- `Platform.is_macos`. -/
def is_macos (tag : String) : Bool := tag = "macos"

/-- `Platform.is_bsd`. -/
def is_bsd (tag : String) : Bool := tag = "bsd"

/-- `Platform.is_ios`. -/
def is_ios (tag : String) : Bool := tag = "ios"

/-- `Platform.is_android`. -/
def is_android (tag : String) : Bool := tag = "android"

/-- `Platform.is_raspberrypi`. -/
def is_raspberrypi (tag : String) : Bool := tag = "raspberrypi"

/-- `Platform.is_pnacl`. -/
def is_pnacl (tag : String) : Bool := tag = "pnacl"

/-- `Platform.is_tizen`. -/
def is_tizen (tag : String) : Bool := tag = "tizen"

/-- C5: `Platform` classification: `linux-x86_64-gnu` maps to the linux tag,
`win32` to the windows tag, and the unrecognized identifier `plan9` is kept
unchanged as the stored tag, with every platform predicate returning false
on it. -/
theorem platform_classification_c5 :
    platformInit "linux-x86_64-gnu" = "linux" ∧
    platformInit "win32" = "windows" ∧
    platformInit "plan9" = "plan9" ∧
    is_linux (platformInit "plan9") = false ∧
    is_windows (platformInit "plan9") = false ∧
    is_macos (platformInit "plan9") = false ∧
    is_bsd (platformInit "plan9") = false ∧
    is_ios (platformInit "plan9") = false ∧
    is_android (platformInit "plan9") = false ∧
    is_raspberrypi (platformInit "plan9") = false ∧
    is_pnacl (platformInit "plan9") = false ∧
    is_tizen (platformInit "plan9") = false := by
  decide

/-- C6 counterexample: the claim says an identifier beginning with `sunos`
is classified into a `sunos` tag belonging to the fixed platform
enumeration.  In the code the classification cascade has no sunos branch,
so the Solaris identifier `sunos5` is kept as the raw string, and `sunos`
is not in `supported_platforms` (which also lacks it in the spec order). -/
theorem sunos_not_classified_c6_counterexample :
    platformInit "sunos5" = "sunos5" ∧
    platformInit "sunos5" ≠ "sunos" ∧
    ¬ ("sunos" ∈ supported_platforms) := by
  decide

/-- C6 amended: a raw identifier beginning with `sunos` (and not containing
`bsd`) falls through every branch of the classification cascade and is
retained unchanged, and the fixed enumeration of platform tags is exactly
windows, linux, macos, bsd, ios, android, raspberrypi, pnacl, tizen —
without sunos. -/
theorem sunos_raw_retained_c6 :
    ∀ raw : String, strStartsWith raw "sunos" = true → containsSub raw "bsd" = false →
      platformInit raw = raw ∧
      supported_platforms =
        ["windows", "linux", "macos", "bsd", "ios", "android", "raspberrypi", "pnacl", "tizen"] ∧
      ¬ ("sunos" ∈ supported_platforms) := by
  intro raw hpre hbsd
  refine ⟨?_, by decide, by decide⟩
  unfold strStartsWith at hpre
  match hdat : raw.data with
  | [] => rw [hdat] at hpre; simp [List.isPrefixOf] at hpre
  | c :: rest =>
    rw [hdat] at hpre
    simp only [List.isPrefixOf, Bool.and_eq_true, beq_iff_eq] at hpre
    obtain ⟨hc, _⟩ := hpre
    subst hc
    unfold containsSub at hbsd
    rw [hdat] at hbsd
    unfold platformInit strStartsWith containsSub
    rw [hdat, hbsd]
    simp [List.isPrefixOf]

/-- C6 amended, witness. -/
theorem sunos_raw_retained_c6_witness :
    platformInit "sunos5" = "sunos5" ∧ ¬ ("sunos" ∈ supported_platforms) := by
  have h := sunos_raw_retained_c6 "sunos5" (by decide) (by decide)
  exact ⟨h.1, h.2.2⟩

/-! ## toolchain.py: writer state, mkdir memoization, copy -/

/-- One emitted build edge: `writer.build(outputs, rule, inputs, implicit,
order_only)` from the ninja syntax writer (variable bindings of an edge are
not needed by any claim and are omitted). -/
structure NinjaEdge where
  outputs : List String
  rule : String
  inputs : List String
  implicit : Option (List String)
  orderOnly : Option (List String)
deriving DecidableEq

/-- The build-graph writer: the ordered list of edges emitted so far. -/
structure NinjaWriter where
  edges : List NinjaEdge
deriving DecidableEq

/-- `writer.build(...)`: append one edge and return its output list. -/
def NinjaWriter.build (w : NinjaWriter) (outputs : List String) (rule : String)
    (inputs : List String) (implicit orderOnly : Option (List String)) :
    List String × NinjaWriter :=
  (outputs, ⟨w.edges ++ [⟨outputs, rule, inputs, implicit, orderOnly⟩]⟩)

/-- The `Toolchain` state the modelled operations touch: the target platform
tag, the subninja path, and the `paths_created` memoization table. -/
structure ToolchainState where
  target : String
  subninja : String
  paths_created : List (String × List String)
deriving DecidableEq

/-- Lookup in the `paths_created` dictionary. -/
def lookupCreated (table : List (String × List String)) (path : String) :
    Option (List String) :=
  (table.find? (fun kv => kv.1 = path)).map (fun kv => kv.2)

/-- `Toolchain.mkdir`: memoized directory-creation edge.  Returns the value
the call returns (Python `None` when the subninja branch returns early),
alongside the updated toolchain and writer states. -/
def Toolchain.mkdir (tc : ToolchainState) (w : NinjaWriter) (path : String)
    (implicit orderOnly : Option (List String)) :
    Option (List String) × ToolchainState × NinjaWriter :=
  match lookupCreated tc.paths_created path with
  | some cmd => (some cmd, tc, w)
  | none =>
    if tc.subninja ≠ "" then (none, tc, w)
    else
      let (cmd, w2) := w.build [path] "mkdir" [] implicit orderOnly
      (some cmd, { tc with paths_created := tc.paths_created ++ [(path, cmd)] }, w2)

/-- `Toolchain.copy`: one copy edge. -/
def Toolchain.copy (w : NinjaWriter) (src dst : String)
    (implicit orderOnly : Option (List String)) : List String × NinjaWriter :=
  w.build [dst] "copy" [src] implicit orderOnly

/-- C2 counterexample: in a subninja generation run (nonempty subninja
path), requesting the same directory-creation edge twice emits no edge at
all — not exactly one — and both calls return Python `None`. -/
theorem mkdir_subninja_no_edge_c2_counterexample :
    (let s1 := Toolchain.mkdir ⟨"linux", "sub", []⟩ ⟨[]⟩ "lib/linux" none none
     let s2 := Toolchain.mkdir s1.2.1 s1.2.2 "lib/linux" none none
     s2.2.2.edges = [] ∧ s2.2.2.edges.length ≠ 1 ∧ s1.1 = none ∧ s2.1 = none) := by
  decide

/-- C2 amended: for a path not yet in the memoization table, calling
`Toolchain.mkdir` twice with the same path emits exactly one
directory-creation edge and the second call returns the value the first
call produced — provided the run is not a subninja sub-build; in a subninja
sub-build both calls return `None` and no edge is emitted. -/
theorem mkdir_idempotent_c2 :
    ∀ (tc : ToolchainState) (w : NinjaWriter) (p : String)
      (implicit orderOnly : Option (List String)),
    lookupCreated tc.paths_created p = none →
    (tc.subninja = "" →
      (let s1 := Toolchain.mkdir tc w p implicit orderOnly
       let s2 := Toolchain.mkdir s1.2.1 s1.2.2 p implicit orderOnly
       s1.1 = some [p] ∧ s2.1 = s1.1 ∧
       s1.2.2.edges = w.edges ++ [⟨[p], "mkdir", [], implicit, orderOnly⟩] ∧
       s2.2.2 = s1.2.2 ∧ s2.2.1 = s1.2.1)) ∧
    (tc.subninja ≠ "" →
      (let s1 := Toolchain.mkdir tc w p implicit orderOnly
       let s2 := Toolchain.mkdir s1.2.1 s1.2.2 p implicit orderOnly
       s1.1 = none ∧ s2.1 = none ∧ s2.2.2.edges = w.edges)) := by
  intro tc w p implicit orderOnly hfresh
  constructor
  · intro hsub
    simp only [Toolchain.mkdir, hfresh, hsub, ne_eq, not_true_eq_false, if_false,
      NinjaWriter.build]
    have hlook : lookupCreated (tc.paths_created ++ [(p, [p])]) p = some [p] := by
      unfold lookupCreated at hfresh ⊢
      rcases hfind : tc.paths_created.find? (fun kv => kv.1 = p) with _ | kv
      · rw [List.find?_append, hfind]
        simp
      · rw [hfind] at hfresh; simp at hfresh
    simp [hlook]
  · intro hsub
    simp [Toolchain.mkdir, hfresh, hsub]

/-- C2 amended, witness: a concrete non-subninja state and a concrete
subninja state. -/
theorem mkdir_idempotent_c2_witness :
    (let s1 := Toolchain.mkdir ⟨"linux", "", []⟩ ⟨[]⟩ "bin/linux" none none
     let s2 := Toolchain.mkdir s1.2.1 s1.2.2 "bin/linux" none none
     s1.1 = some ["bin/linux"] ∧ s2.1 = s1.1 ∧
     s1.2.2.edges = [] ++ [⟨["bin/linux"], "mkdir", [], none, none⟩] ∧
     s2.2.2 = s1.2.2 ∧ s2.2.1 = s1.2.1) := by
  exact (mkdir_idempotent_c2 ⟨"linux", "", []⟩ ⟨[]⟩ "bin/linux" none none (by decide)).1 rfl

/-! ## toolchain.py: dependency resolution and default architectures -/

/-- The two candidate sibling directories tried by
`Toolchain.initialize_depends` for a dependent library name. -/
def dependTestpaths (lib : String) : List String :=
  [ospJoin ".." lib, ospJoin ".." (lib ++ "_lib")]

/-- The header file whose presence marks a candidate directory as the
dependent library: `os.path.join(testpath, lib, lib + ".h")`. -/
def dependHeader (testpath lib : String) : String :=
  ospJoin (ospJoin testpath lib) (lib ++ ".h")

/-- `Toolchain.initialize_depends`.  `isfile` is the set of existing files
(the `os.path.isfile` oracle).  The `print` plus `sys.exit(-1)` on a
missing library is the `Except.error` case, carrying the diagnostic text;
the success value is the pair of the accumulated `depend_includepaths` and
`depend_libpaths` lists. -/
def initialize_depends (isfile : List String) (subninja : String)
    (dependlibs : List String) : Except String (List String × List String) :=
  dependlibs.foldlM
    (fun (acc : List String × List String) lib =>
      match (dependTestpaths lib).find? (fun tp => decide (dependHeader tp lib ∈ isfile)) with
      | none => .error ("Unable to locate dependent lib: " ++ lib)
      | some tp =>
        let tp2 := if subninja ≠ "" then ospJoin (ospSplit subninja).1 (ospSplit tp).2 else tp
        .ok (acc.1 ++ [tp2], if subninja = "" then acc.2 ++ [tp2] else acc.2))
    ([], [])

/-- `Toolchain.initialize_default_archs`.  `localarch` is the stripped
output of `uname -m` consulted on linux and bsd targets.  An unmatched
target leaves the architecture list as the empty list it already was. -/
def initialize_default_archs (target : String) (localarch : String) : List String :=
  if is_windows target then ["x86-64"]
  else if is_linux target || is_bsd target then
    (if localarch = "x86_64" || localarch = "amd64" then ["x86-64"]
     else if localarch = "i686" then ["x86"]
     else [localarch])
  else if is_macos target then ["x86-64"]
  else if is_ios target then ["arm7", "arm64"]
  else if is_raspberrypi target then ["arm6"]
  else if is_android target then ["arm7", "arm64", "x86", "x86-64"]
  else if is_tizen target then ["x86", "arm7"]
  else if is_pnacl target then ["generic"]
  else []

/-- C3 counterexample: in a subninja run the resolved path is rebased and
appended only to the include-path list — the lib-path list stays empty, so
the claim that the resolved path is appended to both lists fails.  Here
`../foo` resolves (the file `../foo/foo/foo.h` exists), yet the resulting
lib-path list is `[]` and the include-path entry is the rebased `foo`, not
the resolved candidate `../foo`. -/
theorem depends_subninja_libpath_c3_counterexample :
    initialize_depends ["../foo/foo/foo.h"] "subproj" ["foo"] =
      .ok (["foo"], []) := by
  rfl

/-- C3 amended: for a dependent library name, if neither candidate sibling
path contains the marker header, initialization fails with the diagnostic
naming the library (modelling the printed message plus `sys.exit(-1)`,
a non-zero exit); if a candidate resolves and the run is not a subninja
sub-build, no exit happens and the resolved path is appended to both the
include-path and lib-path lists; in a subninja sub-build it is rebased and
appended to the include-path list only. -/
theorem depends_resolution_c3 :
    ∀ (isfile : List String) (lib : String),
      ((∀ tp ∈ dependTestpaths lib, ¬ (dependHeader tp lib ∈ isfile)) →
        ∀ subninja, initialize_depends isfile subninja [lib] =
          .error ("Unable to locate dependent lib: " ++ lib)) ∧
      (∀ tp, (dependTestpaths lib).find? (fun t => decide (dependHeader t lib ∈ isfile)) = some tp →
        initialize_depends isfile "" [lib] = .ok ([tp], [tp]) ∧
        (∀ subninja, subninja ≠ "" →
          initialize_depends isfile subninja [lib] =
            .ok ([ospJoin (ospSplit subninja).1 (ospSplit tp).2], []))) := by
  intro isfile lib
  constructor
  · intro hnone subninja
    have hfind : (dependTestpaths lib).find?
        (fun t => decide (dependHeader t lib ∈ isfile)) = none := by
      rw [List.find?_eq_none]
      intro tp htp
      simpa using hnone tp htp
    simp [initialize_depends, hfind]
  · intro tp hfind
    refine ⟨by simp [initialize_depends, hfind], ?_⟩
    intro subninja hsub
    simp [initialize_depends, hfind, hsub]

/-- C3 amended, witness: the library `nope` with no candidate present fails
with the diagnostic naming it; the library `foo` with `../foo/foo/foo.h`
present resolves to `../foo` on both lists. -/
theorem depends_resolution_c3_witness :
    initialize_depends [] "" ["nope"] =
      .error ("Unable to locate dependent lib: " ++ "nope") ∧
    initialize_depends ["../foo/foo/foo.h"] "" ["foo"] =
      .ok (["../foo"], ["../foo"]) := by
  constructor
  · exact (depends_resolution_c3 [] "nope").1 (by decide) ""
  · exact ((depends_resolution_c3 ["../foo/foo/foo.h"] "foo").2 "../foo" (by decide)).1

/-! ## toolchain.py: the app guard (soft-skip on platforms without apps) -/

/-- `Toolchain.app`: the guard at the top filters out target platforms that
have no app concept and returns the empty result without touching the
writer.  The rest of the body (per-config binary builds plus bundle or APK
assembly) is abstracted as `rest`, an arbitrary continuation on the writer
state — the guard property holds whatever it does. -/
def Toolchain.app (target : String) (w : NinjaWriter)
    (rest : NinjaWriter → List String × NinjaWriter) : List String × NinjaWriter :=
  if !(is_macos target || is_ios target || is_android target || is_tizen target) then
    ([], w)
  else rest w

/-- C7: for a target platform that is none of macos, ios, android, tizen,
an app-bundle request returns the empty result and emits no build edges
(the writer state is returned unchanged), rather than failing the run. -/
theorem app_soft_skip_c7 :
    ∀ (target : String) (w : NinjaWriter)
      (rest : NinjaWriter → List String × NinjaWriter),
      is_macos target = false → is_ios target = false →
      is_android target = false → is_tizen target = false →
      Toolchain.app target w rest = ([], w) := by
  intro target w rest h1 h2 h3 h4
  simp [Toolchain.app, h1, h2, h3, h4]

/-- C7 witness: a linux target with a writer that already holds an edge and
a continuation that would emit another edge: the request yields the empty
result and the writer is unchanged. -/
theorem app_soft_skip_c7_witness :
    Toolchain.app "linux" ⟨[⟨["a"], "copy", ["b"], none, none⟩]⟩
      (fun w => (["x"], ⟨w.edges ++ [⟨["x"], "link", [], none, none⟩]⟩)) =
    ([], ⟨[⟨["a"], "copy", ["b"], none, none⟩]⟩) :=
  app_soft_skip_c7 "linux" _ _ (by decide) (by decide) (by decide) (by decide)

/-! ## toolchain.py / clang.py: multi-architecture fan-in -/

/-- The arch-search of `Toolchain.builder_multicopy`: the while loop over
`os.path.split` checks every path component except the first against each
requested architecture and keeps the first architecture that matches. -/
def multicopyArchMatch (archs : List String) (path : String) : Option String :=
  archs.find? (fun arch => (pathComponents path).drop 1 |>.contains arch)

/-- `Toolchain.builder_multicopy`: the multi-architecture step on non-Apple
targets.  Each input file is copied to the output directory (with an arch
subdirectory when an architecture name occurs in its directory path), one
copy edge per input whose source and destination differ. -/
def Toolchain.builder_multicopy (tc : ToolchainState) (w : NinjaWriter)
    (archs : List String) (infiles : List String) (outpath : String) :
    List String × ToolchainState × NinjaWriter :=
  let s0 := Toolchain.mkdir tc w outpath none none
  let rootdir := s0.1
  infiles.foldl
    (fun (acc : List String × ToolchainState × NinjaWriter) file =>
      let (output, tc, w) := acc
      let (path, targetfile) := ospSplit file
      let archpath :=
        if is_pnacl tc.target then outpath
        else match multicopyArchMatch archs path with
          | some arch => ospJoin outpath arch
          | none => outpath
      let targetpath := ospJoin archpath targetfile
      if normpath file ≠ normpath targetpath then
        let s1 := Toolchain.mkdir tc w archpath rootdir none
        let (cp, w2) := Toolchain.copy s1.2.2 file targetpath none s1.1
        (output ++ cp, s1.2.1, w2)
      else (output, tc, w))
    ([], s0.2.1, s0.2.2)

/-- `ClangToolchain.builder_apple_multibin`: the Apple fusion step, one
`lipo` edge taking all per-architecture binaries as inputs and producing
the single fused output `os.path.join(outfile, self.buildtarget)`. -/
def builder_apple_multibin (w : NinjaWriter) (buildtarget : String)
    (infiles : List String) (outfile : String) : List String × NinjaWriter :=
  w.build [ospJoin outfile buildtarget] "lipo" infiles none none

/-- The per-configuration architecture loop of `Toolchain.build_sources`
for an executable request under the clang backend: each architecture
contributes `compile_node = builder_bin = writer.build(outfile, "link",
objs)`, whose single output is appended to the per-arch node list.
`objsFor` gives the per-arch compiled object files and `archOutFor` the
per-arch binary path `os.path.join(modulepath, binfile)`. -/
def build_sources_archnodes (w : NinjaWriter) (archs : List String)
    (objsFor : String → List String) (archOutFor : String → String) :
    List String × NinjaWriter :=
  archs.foldl
    (fun (acc : List String × NinjaWriter) arch =>
      let (nodes, w) := acc
      let (out, w2) := w.build [archOutFor arch] "link" (objsFor arch) none none
      (nodes ++ out, w2))
    ([], w)

theorem build_sources_archnodes_go_length :
    ∀ (archs : List String) (acc : List String) (w : NinjaWriter)
      (objsFor : String → List String) (archOutFor : String → String),
      (archs.foldl
        (fun (acc : List String × NinjaWriter) arch =>
          let (nodes, w) := acc
          let (out, w2) := w.build [archOutFor arch] "link" (objsFor arch) none none
          (nodes ++ out, w2))
        (acc, w)).1.length = acc.length + archs.length := by
  intro archs
  induction archs with
  | nil => intro acc w objsFor archOutFor; simp
  | cons a rest ih =>
    intro acc w objsFor archOutFor
    rw [List.foldl_cons]
    have h := ih (acc ++ [archOutFor a])
      ⟨w.edges ++ [⟨[archOutFor a], "link", objsFor a, none, none⟩]⟩ objsFor archOutFor
    exact h.trans (by simp; omega)

/-- C4 counterexample: on a non-Apple target the multi-architecture step is
`builder_multicopy`, which with two architectures consumes the two per-arch
binaries and produces two copy outputs — not exactly one fused output.
Moreover requesting the Apple fusion step with zero inputs is not an error:
it emits a normal `lipo` edge with an empty input list. -/
theorem multicopy_not_single_output_c4_counterexample :
    ((Toolchain.builder_multicopy ⟨"linux", "", []⟩ ⟨[]⟩ ["x86", "x86-64"]
        ["$buildpath/debug/x86/m/libfoo.so", "$buildpath/debug/x86-64/m/libfoo.so"]
        "bin/linux/debug").1.length = 2 ∧
     (Toolchain.builder_multicopy ⟨"linux", "", []⟩ ⟨[]⟩ ["x86", "x86-64"]
        ["$buildpath/debug/x86/m/libfoo.so", "$buildpath/debug/x86-64/m/libfoo.so"]
        "bin/linux/debug").1.length ≠ 1 ∧
     (builder_apple_multibin ⟨[]⟩ "binfile" [] "bin/macos/debug").1 =
       [ospJoin "bin/macos/debug" "binfile"]) := by
  refine ⟨by rfl, by decide, by rfl⟩

/-- C4 amended: the architecture loop of `build_sources` produces exactly
one per-arch artifact per requested architecture; on Apple targets the
fusion step consumes exactly that list of N per-architecture artifacts as
its inputs and produces exactly one fused output; and a fusion request
with zero inputs cannot arise from a supported target platform, since an
empty architecture request falls back to a non-empty default list (on
other targets the multi-arch step is a per-architecture copy instead, one
output per differing input). -/
theorem apple_fusion_c4 :
    ∀ (w : NinjaWriter) (archs : List String) (objsFor : String → List String)
      (archOutFor : String → String) (outfile buildtarget : String),
      (build_sources_archnodes w archs objsFor archOutFor).1.length = archs.length ∧
      (let s := build_sources_archnodes w archs objsFor archOutFor
       let f := builder_apple_multibin s.2 buildtarget s.1 outfile
       f.1 = [ospJoin outfile buildtarget] ∧ f.1.length = 1 ∧
       f.2.edges = s.2.edges ++ [⟨[ospJoin outfile buildtarget], "lipo", s.1, none, none⟩]) ∧
      (∀ p ∈ supported_platforms, ∀ localarch,
        initialize_default_archs p localarch ≠ []) := by
  intro w archs objsFor archOutFor outfile buildtarget
  refine ⟨?_, ⟨rfl, rfl, rfl⟩, ?_⟩
  · have h := build_sources_archnodes_go_length archs [] w objsFor archOutFor
    simpa [build_sources_archnodes] using h
  · intro p hp localarch
    fin_cases hp <;>
      simp [initialize_default_archs, is_windows, is_linux, is_bsd, is_macos,
        is_ios, is_raspberrypi, is_android, is_tizen, is_pnacl] <;>
      split_ifs <;> simp_all

/-! ## clang.py / gcc.py / msvc.py: compile-flag derivation -/

/-- `ClangToolchain.make_targetarchflags`.  `gccToolchainPath` stands for
`self.android.make_gcc_toolchain_path`, consulted only on the android
target. -/
def clang_make_targetarchflags (target : String) (gccToolchainPath : String → String)
    (arch targettype : String) : List String :=
  if is_android target then
    (if arch = "x86" then
      ["-target", "i686-none-linux-android",
       "-march=i686", "-mtune=intel", "-mssse3", "-mfpmath=sse", "-m32"]
     else if arch = "x86-64" then
      ["-target", "x86_64-none-linux-android",
       "-march=x86-64", "-msse4.2", "-mpopcnt", "-m64", "-mtune=intel"]
     else if arch = "arm6" then
      ["-target", "armv5te-none-linux-androideabi",
       "-march=armv5te", "-mtune=xscale", "-msoft-float", "-marm"]
     else if arch = "arm7" then
      ["-target", "armv7-none-linux-androideabi",
       "-march=armv7-a", "-mhard-float", "-mfpu=vfpv3-d16", "-mfpu=neon",
       "-D_NDK_MATH_NO_SOFTFP=1", "-marm"]
     else if arch = "arm64" then ["-target", "aarch64-none-linux-android"]
     else if arch = "mips" then ["-target", "mipsel-none-linux-android"]
     else if arch = "mips64" then ["-target", "mips64el-none-linux-android"]
     else []) ++ ["-gcc-toolchain", gccToolchainPath arch]
  else if is_macos target || is_ios target then
    (if arch = "x86" then ["-arch", "x86"]
     else if arch = "x86-64" then ["-arch", "x86_64"]
     else if arch = "arm7" then ["-arch", "armv7"]
     else if arch = "arm64" then ["-arch", "arm64"]
     else [])
  else if is_windows target then
    (if arch = "x86" then ["-target", "x86-pc-windows-msvc"]
     else if arch = "x64" then ["-target", "x86_64-pc-windows-msvc"]
     else [])
  else
    (if arch = "x86" then ["-m32"]
     else if arch = "x86-64" then ["-m64"]
     else [])

/-- `ClangToolchain.make_carchflags`: the dynamic-link define is added only
for the sharedlib target type, and `-fPIC` only when the target platform is
linux or bsd. -/
def clang_make_carchflags (target : String) (gccToolchainPath : String → String)
    (arch targettype : String) : List String :=
  (if targettype = "sharedlib" then
    ["-DBUILD_DYNAMIC_LINK=1"] ++
      (if is_linux target || is_bsd target then ["-fPIC"] else [])
   else []) ++ clang_make_targetarchflags target gccToolchainPath arch targettype

/-- `GCCToolchain.make_targetarchflags`. -/
def gcc_make_targetarchflags (arch targettype : String) : List String :=
  if arch = "x86" then ["-m32"]
  else if arch = "x86-64" then ["-m64"]
  else []

/-- `GCCToolchain.make_carchflags`: the dynamic-link define is added only
for the sharedlib target type, and `-fPIC` only when the target platform is
linux. -/
def gcc_make_carchflags (target arch targettype : String) : List String :=
  (if targettype = "sharedlib" then
    ["-DBUILD_DYNAMIC_LINK=1"] ++ (if is_linux target then ["-fPIC"] else [])
   else []) ++ gcc_make_targetarchflags arch targettype

/-- `MSVCToolchain.make_carchflags`: `/MD` plus the quoted dynamic-link
define for sharedlib, `/MT` otherwise, and `/arch:SSE2` on x86. -/
def msvc_make_carchflags (arch targettype : String) : List String :=
  (if targettype = "sharedlib" then ["/MD", "/D", "\"BUILD_DYNAMIC_LINK=1\""]
   else ["/MT"]) ++
  (if arch = "x86" then ["/arch:SSE2"] else [])

/-- C1 counterexample: on the raspberrypi target — an ELF target in the
claim — a shared-library build gets no `-fPIC` from either the clang or
the gcc backend (the clang guard tests only linux and bsd, the gcc guard
only linux), and the msvc backend produces no `-fPIC` for any build. -/
theorem carchflags_fpic_c1_counterexample :
    ¬ ("-fPIC" ∈ clang_make_carchflags "raspberrypi" (fun _ => "") "arm6" "sharedlib") ∧
    ¬ ("-fPIC" ∈ gcc_make_carchflags "raspberrypi" "arm6" "sharedlib") ∧
    ¬ ("-fPIC" ∈ msvc_make_carchflags "x86-64" "sharedlib") := by
  decide

/-- C1 amended: for shared-library builds the clang backend includes
`-fPIC` exactly on the linux and bsd targets and the gcc backend on the
linux target, but neither does on raspberrypi and the msvc backend never
emits `-fPIC` at all; in all three backends a static-library build
(`targettype = "lib"`) never receives the dynamic-link define, on any of
the three ELF-like targets and for every architecture string. -/
theorem carchflags_c1 :
    (∀ (g : String → String) (arch : String),
      "-fPIC" ∈ clang_make_carchflags "linux" g arch "sharedlib" ∧
      "-fPIC" ∈ clang_make_carchflags "bsd" g arch "sharedlib" ∧
      ¬ ("-fPIC" ∈ clang_make_carchflags "raspberrypi" g arch "sharedlib") ∧
      ¬ ("-DBUILD_DYNAMIC_LINK=1" ∈ clang_make_carchflags "linux" g arch "lib") ∧
      ¬ ("-DBUILD_DYNAMIC_LINK=1" ∈ clang_make_carchflags "bsd" g arch "lib") ∧
      ¬ ("-DBUILD_DYNAMIC_LINK=1" ∈ clang_make_carchflags "raspberrypi" g arch "lib")) ∧
    (∀ arch : String,
      "-fPIC" ∈ gcc_make_carchflags "linux" arch "sharedlib" ∧
      ¬ ("-fPIC" ∈ gcc_make_carchflags "bsd" arch "sharedlib") ∧
      ¬ ("-fPIC" ∈ gcc_make_carchflags "raspberrypi" arch "sharedlib") ∧
      ¬ ("-DBUILD_DYNAMIC_LINK=1" ∈ gcc_make_carchflags "linux" arch "lib") ∧
      ¬ ("-DBUILD_DYNAMIC_LINK=1" ∈ gcc_make_carchflags "bsd" arch "lib") ∧
      ¬ ("-DBUILD_DYNAMIC_LINK=1" ∈ gcc_make_carchflags "raspberrypi" arch "lib")) ∧
    (∀ arch targettype : String,
      ¬ ("-fPIC" ∈ msvc_make_carchflags arch targettype)) ∧
    (∀ arch : String,
      ¬ ("\"BUILD_DYNAMIC_LINK=1\"" ∈ msvc_make_carchflags arch "lib")) := by
  refine ⟨?_, ?_, ?_, ?_⟩
  · intro g arch
    refine ⟨?_, ?_, ?_, ?_, ?_, ?_⟩ <;>
      simp [clang_make_carchflags, clang_make_targetarchflags, is_android,
        is_macos, is_ios, is_windows, is_linux, is_bsd] <;>
      split_ifs <;> simp_all
  · intro arch
    refine ⟨?_, ?_, ?_, ?_, ?_, ?_⟩ <;>
      simp [gcc_make_carchflags, gcc_make_targetarchflags, is_linux] <;>
      split_ifs <;> simp_all
  · intro arch targettype
    simp [msvc_make_carchflags] <;> split_ifs <;> simp_all
  · intro arch
    simp [msvc_make_carchflags] <;> split_ifs <;> simp_all

/-! ## android.py: APK assembly -/

/-- The `archpath` architecture-to-ABI-directory table from
`Android.initialize_toolchain`; a missing key is a Python `KeyError`. -/
def android_archpath (arch : String) : Option String :=
  if arch = "x86" then some "x86"
  else if arch = "x86-64" then some "x86-64"
  else if arch = "arm6" then some "armeabi"
  else if arch = "arm7" then some "armeabi-v7a"
  else if arch = "arm64" then some "arm64-v8a"
  else if arch = "mips" then some "mips"
  else if arch = "mips64" then some "mips64"
  else none

/-- Python list concatenation `a + b` where either operand may be `None`
(the value a subninja-mode `Toolchain.mkdir` returns): `None` raises a
`TypeError`. -/
def pyListAdd (a b : Option (List String)) : Except String (List String) :=
  match a, b with
  | some x, some y => .ok (x ++ y)
  | _, _ => .error "TypeError: unsupported operand for +"

/-- The native-library staging loop of `Android.apk`: every per-arch
binary is copied under `lib/<abi-dir>/` inside the APK build directory.
Returns the `locallibs` names and the `libfiles` copy outputs. -/
def apkStageLibs (w : NinjaWriter) (buildpath : String)
    (archbins : List (String × List String)) :
    Except String (List String × List String × NinjaWriter) :=
  ((archbins.map Prod.snd).flatten).foldlM
    (fun (acc : List String × List String × NinjaWriter) archbin =>
      let (locallibs, libfiles, w) := acc
      let archpair := ospSplit archbin
      let libname := archpair.2
      let arch := (ospSplit archpair.1).2
      match android_archpath arch with
      | none => .error ("KeyError: " ++ arch)
      | some abidir =>
        let locallibpath := ospJoin (ospJoin "lib" abidir) libname
        let archpath := ospJoin buildpath locallibpath
        let c := Toolchain.copy w archbin archpath none none
        .ok (locallibs ++ [locallibpath ++ " "], libfiles ++ c.1, c.2))
    ([], [], w)

/-- The resource staging loop of `Android.apk`: the manifest is copied to
the build directory root, `asset` resources are skipped, and every other
resource is copied under `res/<type>/`. -/
def apkStageResources (w : NinjaWriter) (buildpath basepath module : String)
    (resources : List String) : List String × List String × NinjaWriter :=
  resources.foldl
    (fun (acc : List String × List String × NinjaWriter) resource =>
      let (manifestfile, resfiles, w) := acc
      let filename := (ospSplit resource).2
      if filename = "AndroidManifest.xml" then
        let c := Toolchain.copy w (ospJoin (ospJoin basepath module) resource)
          (ospJoin buildpath "AndroidManifest.xml") none none
        (c.1, resfiles, c.2)
      else
        let restype := (ospSplit (ospSplit resource).1).2
        if restype = "asset" then (manifestfile, resfiles, w)
        else
          let c := Toolchain.copy w (ospJoin (ospJoin basepath module) resource)
            (ospJoin (ospJoin (ospJoin buildpath "res") restype) filename) none none
          (manifestfile, resfiles ++ c.1, c.2))
    ([], [], w)

/-- `Android.apk`: stage native libraries and resources, create the gen,
bin and bin/res directories, emit the base packaging edge (`aapt`, or
`aaptdeploy` for the deploy config), the optional java compile and dex
edges, then the injection (`aaptadd`), signing (`codesign`) and alignment
(`zipalign`) edges in that order.  Per-edge variable bindings (the
`aaptvars`, `javavars` and `codesignvars` name-value pairs of the source)
are not modelled; the `locallibs` and `localjava` name accumulators feed
only those bindings and are dropped likewise. -/
def android_apk (tc : ToolchainState) (w : NinjaWriter) (module : String)
    (archbins : List (String × List String)) (javasources : List String)
    (outpath binname basepath config : String) (resources : List String) :
    Except String (List String × ToolchainState × NinjaWriter) :=
  let buildpath := ospJoin (ospJoin (ospJoin "$buildpath" config) "apk") binname
  let baseapkname := binname ++ ".base.apk"
  let unsignedapkname := binname ++ ".unsigned.apk"
  let unalignedapkname := binname ++ ".unaligned.apk"
  let apkname := binname ++ ".apk"
  match apkStageLibs w buildpath archbins with
  | .error e => .error e
  | .ok (_, libfiles, w1) =>
    let r := apkStageResources w1 buildpath basepath module resources
    let manifestfile := r.1
    let resfiles := r.2.1
    let m1 := Toolchain.mkdir tc r.2.2 (ospJoin buildpath "gen") none none
    let m2 := Toolchain.mkdir m1.2.1 m1.2.2 (ospJoin buildpath "bin") none none
    let m3 := Toolchain.mkdir m2.2.1 m2.2.2 (ospJoin (ospJoin buildpath "bin") "res") none m2.1
    match pyListAdd m1.1 m2.1 with
    | .error e => .error e
    | .ok g12 =>
      match pyListAdd (some g12) m3.1 with
      | .error e => .error e
      | .ok alldirs =>
        let aaptout := ospJoin buildpath baseapkname
        let b :=
          if config = "deploy" then
            m3.2.2.build [aaptout] "aaptdeploy" manifestfile
              (some (manifestfile ++ resfiles)) (some alldirs)
          else
            m3.2.2.build [aaptout] "aapt" manifestfile
              (some (manifestfile ++ resfiles)) (some alldirs)
        let baseapkfile := b.1
        let j :=
          if javasources ≠ [] then
            let classpath := ospJoin buildpath "classes"
            let jc := b.2.build [classpath] "javac" javasources (some baseapkfile) none
            jc.2.build [ospJoin buildpath "classes.dex"] "dex" [classpath] none none
          else ([], b.2)
        let javafiles := j.1
        let u := j.2.build [ospJoin buildpath unsignedapkname] "aaptadd" baseapkfile
          (some (libfiles ++ javafiles)) (some alldirs)
        let s := u.2.build [ospJoin buildpath unalignedapkname] "codesign" u.1 none none
        let z := s.2.build [ospJoin (ospJoin outpath config) apkname] "zipalign" s.1 none none
        .ok (z.1, m3.2.1, z.2)


theorem apk_tail_edges :
    ∀ (W : NinjaWriter) (aaptRule : String),
      aaptRule = "aapt" ∨ aaptRule = "aaptdeploy" →
      ∀ (manifest libfiles alldirs javasources : List String)
        (mimpl mord : Option (List String))
        (aaptout classpath dexout unsignedpath unalignedpath outapkpath : String),
      (let b := W.build [aaptout] aaptRule manifest mimpl mord
       let j := if javasources ≠ [] then
           (let jc := b.2.build [classpath] "javac" javasources (some b.1) none
            jc.2.build [dexout] "dex" [classpath] none none)
         else ([], b.2)
       let u := j.2.build [unsignedpath] "aaptadd" b.1
         (some (libfiles ++ j.1)) (some alldirs)
       let s := u.2.build [unalignedpath] "codesign" u.1 none none
       let z := s.2.build [outapkpath] "zipalign" s.1 none none
       ∃ zipE csE addE rest,
         z.2.edges.reverse = zipE :: csE :: addE :: rest ∧
         zipE.rule = "zipalign" ∧ csE.rule = "codesign" ∧ addE.rule = "aaptadd" ∧
         zipE.inputs = csE.outputs ∧ csE.inputs = addE.outputs ∧
         ∃ aaptE, aaptE ∈ rest ∧ (aaptE.rule = "aapt" ∨ aaptE.rule = "aaptdeploy") ∧
           addE.inputs = aaptE.outputs) := by
  intro W aaptRule hrule manifest libfiles alldirs javasources mimpl mord
    aaptout classpath dexout unsignedpath unalignedpath outapkpath
  dsimp only
  by_cases hj : javasources ≠ []
  · rw [if_pos hj]
    refine ⟨⟨[outapkpath], "zipalign", [unalignedpath], none, none⟩,
      ⟨[unalignedpath], "codesign", [unsignedpath], none, none⟩,
      ⟨[unsignedpath], "aaptadd", [aaptout], some (libfiles ++ [dexout]), some alldirs⟩,
      ⟨[dexout], "dex", [classpath], none, none⟩ ::
        ⟨[classpath], "javac", javasources, some [aaptout], none⟩ ::
        ⟨[aaptout], aaptRule, manifest, mimpl, mord⟩ :: W.edges.reverse,
      ?_, rfl, rfl, rfl, rfl, rfl,
      ⟨[aaptout], aaptRule, manifest, mimpl, mord⟩, by simp, hrule, rfl⟩
    simp [NinjaWriter.build]
  · rw [if_neg hj]
    refine ⟨⟨[outapkpath], "zipalign", [unalignedpath], none, none⟩,
      ⟨[unalignedpath], "codesign", [unsignedpath], none, none⟩,
      ⟨[unsignedpath], "aaptadd", [aaptout], some (libfiles ++ []), some alldirs⟩,
      ⟨[aaptout], aaptRule, manifest, mimpl, mord⟩ :: W.edges.reverse,
      ?_, rfl, rfl, rfl, rfl, rfl,
      ⟨[aaptout], aaptRule, manifest, mimpl, mord⟩, by simp, hrule, rfl⟩
    simp [NinjaWriter.build]

/-- C8: in every successfully emitted APK build graph the stage order is
fixed by the dependency edges: the final three edges are the injection
(`aaptadd`), signing (`codesign`) and alignment (`zipalign`) edges in that
order, the zipalign edge consumes the codesign output, the codesign edge
consumes the aaptadd output, and the aaptadd edge consumes the output of
the base packaging edge (`aapt`, or `aaptdeploy` in the deploy config)
found earlier in the graph. -/
theorem apk_stage_order_c8 :
    ∀ (tc : ToolchainState) (w : NinjaWriter) (module : String)
      (archbins : List (String × List String)) (javasources : List String)
      (outpath binname basepath config : String) (resources : List String)
      (out : List String) (tc2 : ToolchainState) (w2 : NinjaWriter),
      android_apk tc w module archbins javasources outpath binname basepath config resources
        = .ok (out, tc2, w2) →
      ∃ zipE csE addE rest,
        w2.edges.reverse = zipE :: csE :: addE :: rest ∧
        zipE.rule = "zipalign" ∧ csE.rule = "codesign" ∧ addE.rule = "aaptadd" ∧
        zipE.inputs = csE.outputs ∧ csE.inputs = addE.outputs ∧
        ∃ aaptE, aaptE ∈ rest ∧ (aaptE.rule = "aapt" ∨ aaptE.rule = "aaptdeploy") ∧
          addE.inputs = aaptE.outputs := by
  intro tc w module archbins javasources outpath binname basepath config resources out tc2 w2 h
  unfold android_apk at h
  dsimp only at h
  split at h
  · exact absurd h (by simp)
  · split at h
    · exact absurd h (by simp)
    · split at h
      · exact absurd h (by simp)
      · rw [Except.ok.injEq] at h
        have hw := congrArg (fun t : List String × ToolchainState × NinjaWriter => t.2.2) h
        dsimp only at hw
        subst hw
        by_cases hc : config = "deploy"
        · rw [if_pos hc]
          exact apk_tail_edges _ "aaptdeploy" (Or.inr rfl) _ _ _ _ _ _ _ _ _ _ _ _
        · rw [if_neg hc]
          exact apk_tail_edges _ "aapt" (Or.inl rfl) _ _ _ _ _ _ _ _ _ _ _ _

/-- C8 witness: a concrete successful APK run (android target, one arm7
binary, one manifest resource, debug config). -/
theorem apk_stage_order_c8_witness :
    ∃ zipE csE addE rest,
      (⟨[⟨["$buildpath/debug/apk/app/lib/armeabi-v7a/libm.so"], "copy",
           ["lib/arm7/libm.so"], none, none⟩,
         ⟨["$buildpath/debug/apk/app/AndroidManifest.xml"], "copy",
           ["m/AndroidManifest.xml"], none, none⟩,
         ⟨["$buildpath/debug/apk/app/gen"], "mkdir", [], none, none⟩,
         ⟨["$buildpath/debug/apk/app/bin"], "mkdir", [], none, none⟩,
         ⟨["$buildpath/debug/apk/app/bin/res"], "mkdir", [], none,
           some ["$buildpath/debug/apk/app/bin"]⟩,
         ⟨["$buildpath/debug/apk/app/app.base.apk"], "aapt",
           ["$buildpath/debug/apk/app/AndroidManifest.xml"],
           some ["$buildpath/debug/apk/app/AndroidManifest.xml"],
           some ["$buildpath/debug/apk/app/gen", "$buildpath/debug/apk/app/bin",
                 "$buildpath/debug/apk/app/bin/res"]⟩,
         ⟨["$buildpath/debug/apk/app/app.unsigned.apk"], "aaptadd",
           ["$buildpath/debug/apk/app/app.base.apk"],
           some ["$buildpath/debug/apk/app/lib/armeabi-v7a/libm.so"],
           some ["$buildpath/debug/apk/app/gen", "$buildpath/debug/apk/app/bin",
                 "$buildpath/debug/apk/app/bin/res"]⟩,
         ⟨["$buildpath/debug/apk/app/app.unaligned.apk"], "codesign",
           ["$buildpath/debug/apk/app/app.unsigned.apk"], none, none⟩,
         ⟨["bin/android/debug/app.apk"], "zipalign",
           ["$buildpath/debug/apk/app/app.unaligned.apk"], none, none⟩]⟩ :
        NinjaWriter).edges.reverse = zipE :: csE :: addE :: rest ∧
      zipE.rule = "zipalign" ∧ csE.rule = "codesign" ∧ addE.rule = "aaptadd" ∧
      zipE.inputs = csE.outputs ∧ csE.inputs = addE.outputs ∧
      ∃ aaptE, aaptE ∈ rest ∧ (aaptE.rule = "aapt" ∨ aaptE.rule = "aaptdeploy") ∧
        addE.inputs = aaptE.outputs :=
  apk_stage_order_c8 ⟨"android", "", []⟩ ⟨[]⟩ "m" [("debug", ["lib/arm7/libm.so"])] []
    "bin/android" "app" "" "debug" ["AndroidManifest.xml"]
    ["bin/android/debug/app.apk"]
    ⟨"android", "",
      [("$buildpath/debug/apk/app/gen", ["$buildpath/debug/apk/app/gen"]),
       ("$buildpath/debug/apk/app/bin", ["$buildpath/debug/apk/app/bin"]),
       ("$buildpath/debug/apk/app/bin/res", ["$buildpath/debug/apk/app/bin/res"])]⟩
    _ rfl

/-! ## toolchain.py / generator.py: path hashing and generation -/

/-- The adler32 checksum of `zlib.adler32` over a byte sequence. -/
def adler32 (bytes : List Nat) : Nat :=
  let p := bytes.foldl
    (fun (ab : Nat × Nat) byte => ((ab.1 + byte) % 65521, (ab.2 + ab.1 + byte) % 65521))
    (1, 0)
  p.2 * 65536 + p.1

/-- The bytes of an encoded path string (the generator only hashes ASCII
module and file names, where the UTF-8 bytes are the code points). -/
def strBytes (s : String) : List Nat := s.data.map Char.toNat

def hexDigitChar (n : Nat) : Char := "0123456789abcdef".data.getD n '0'

/-- The hexadecimal digits of a natural number, most significant first,
as Python `hex` prints them after the `0x` prefix. -/
def natHexDigits (n : Nat) : List Char :=
  if h : n < 16 then [hexDigitChar n]
  else natHexDigits (n / 16) ++ [hexDigitChar (n % 16)]
termination_by n
decreasing_by
  simp_wf
  exact Nat.div_lt_self (by omega) (by omega)

/-- `make_pathhash` from toolchain.py: a dash followed by the hex digits of
the masked adler32 checksum of `path + targettype`, with the final
character cut off by the `[2:-1]` slice. -/
def make_pathhash (path targettype : String) : String :=
  "-" ++ String.mk (natHexDigits (adler32 (strBytes (path ++ targettype)) % 4294967296)).dropLast

/-- The environment variable names `Generator.__init__` would record into
the build graph. -/
def generator_env_keys : List String :=
  ["CC", "AR", "LINK", "CFLAGS", "ARFLAGS", "LINKFLAGS"]

/-- The `configure_env` dictionary: the environment entries whose keys are
in `generator_env_keys`. -/
def configure_env (env : List (String × String)) : List (String × String) :=
  env.filter (fun kv => decide (kv.1 ∈ generator_env_keys))

/-- The environment-recording branch of `Generator.__init__`: when
`configure_env` is non-empty the branch evaluates the unbound name
`writer` (the source says `writer.variable(...)` where only `self.writer`
exists), which raises an uncaught `NameError`; otherwise the branch is
skipped. -/
def generator_env_branch (env : List (String × String)) : Except String Unit :=
  if configure_env env ≠ [] then .error "NameError: name writer is not defined"
  else .ok ()

/-- `make_toolchain` selection from toolchain.py, by name: explicit choice,
else gcc on raspberrypi, msvc on windows-to-windows, else clang. -/
def make_toolchain_name (host target : String) : Option String → String
  | some t => t
  | none =>
    if is_raspberrypi target then "gcc"
    else if is_windows host && is_windows target then "msvc"
    else "clang"

/-- Python `" ".join`. -/
def spaceJoin : List String → String
  | [] => ""
  | [x] => x
  | x :: xs => x ++ " " ++ spaceJoin xs

/-- One artifact request whose module path the generation run decorates
with the checksum disambiguator. -/
structure ModuleRequest where
  module : String
  binfile : String
  nodetype : String
deriving DecidableEq

/-- Every run-relevant input of a generation run: the command line, the
parsed flags, the environment, the ambient platform identifier, the fixed
version string and the artifact requests.  The claim fixes these and asks
for byte-identical output. -/
structure GeneratorInputs where
  project : String
  argv : List String
  targetFlag : Option String
  hostFlag : Option String
  toolchainFlag : Option String
  archs : List String
  configs : List String
  env : List (String × String)
  sysPlatform : String
  versionStr : String
  subninja : String
  modules : List ModuleRequest
deriving DecidableEq

/-- The generation run of `Generator.__init__`, abridged to the records it
emits in order: the required-version and configure variables, then the
checksum-derived module path disambiguators of `build_sources` for each
artifact request.  Every record is a pure function of the explicit input
record; the only consultation of ambient state in the source (the
`configure_env` recording branch) aborts the run with a `NameError`
(see `generator_env_branch`) before emitting anything order-dependent. -/
def runGenerator (i : GeneratorInputs) : Except String (List String) :=
  let target := platformInitOpt i.sysPlatform i.targetFlag
  let host := platformInitOpt i.sysPlatform i.hostFlag
  match generator_env_branch i.env with
  | .error e => .error e
  | .ok _ =>
    .ok (["ninja_required_version = 1.3",
          "configure_args = " ++ spaceJoin i.argv,
          "configure_target = " ++ target,
          "configure_host = " ++ host,
          "configure_toolchain = " ++ make_toolchain_name host target i.toolchainFlag,
          "configure_archs = " ++ spaceJoin i.archs,
          "configure_configs = " ++ spaceJoin i.configs,
          "version = " ++ i.versionStr] ++
         i.modules.map (fun r =>
           r.module ++ make_pathhash (i.subninja ++ r.module ++ r.binfile) r.nodetype))

/-- C9: generation is deterministic: two runs with identical inputs (same
command line, same parsed flags, same environment, same ambient platform
identifier, same version string, same artifact requests) produce identical
output, including the checksum-derived module path disambiguators —
`runGenerator` and `make_pathhash` are pure functions of the input record,
with no dependence on anything outside it. -/
theorem generation_deterministic_c9 :
    ∀ i j : GeneratorInputs, i = j →
      runGenerator i = runGenerator j ∧
      ∀ r : ModuleRequest, r ∈ i.modules → r ∈ j.modules ∧
        make_pathhash (i.subninja ++ r.module ++ r.binfile) r.nodetype =
          make_pathhash (j.subninja ++ r.module ++ r.binfile) r.nodetype := by
  intro i j h
  subst h
  exact ⟨rfl, fun r hr => ⟨hr, rfl⟩⟩

/-- C9 witness: a concrete run with one module request, evaluated twice. -/
theorem generation_deterministic_c9_witness :
    runGenerator ⟨"rpmalloc", ["-c", "release"], some "linux", none, none, ["x86-64"],
        ["release"], [], "linux2", "1.3.1", "", [⟨"rpmalloc", "librpmalloc.a", "lib"⟩]⟩ =
      runGenerator ⟨"rpmalloc", ["-c", "release"], some "linux", none, none, ["x86-64"],
        ["release"], [], "linux2", "1.3.1", "", [⟨"rpmalloc", "librpmalloc.a", "lib"⟩]⟩ :=
  (generation_deterministic_c9 _ _ rfl).1

/-- C10: if any of the environment variables CC, AR, LINK, CFLAGS, ARFLAGS
or LINKFLAGS is set at generator construction, the recording branch
evaluates the unbound name `writer` and the run dies with the `NameError`
— generation never completes; with none of them set the branch is skipped
and the run proceeds. -/
theorem env_branch_nameerror_c10 :
    ∀ env : List (String × String),
      (configure_env env ≠ [] ↔ ∃ kv, kv ∈ env ∧ kv.1 ∈ generator_env_keys) ∧
      (configure_env env ≠ [] →
        generator_env_branch env = .error "NameError: name writer is not defined" ∧
        ∀ i : GeneratorInputs, i.env = env →
          runGenerator i = .error "NameError: name writer is not defined") ∧
      (configure_env env = [] → generator_env_branch env = .ok ()) := by
  intro env
  refine ⟨?_, ?_, ?_⟩
  · constructor
    · intro h
      by_contra hno
      push_neg at hno
      apply h
      unfold configure_env
      rw [List.filter_eq_nil]
      intro kv hkv
      simpa using hno kv hkv
    · rintro ⟨kv, hkv, hmem⟩ h
      unfold configure_env at h
      rw [List.filter_eq_nil] at h
      exact absurd (by simpa using hmem) (h kv hkv)
  · intro h
    refine ⟨by simp [generator_env_branch, h], ?_⟩
    intro i hi
    have hb : generator_env_branch i.env = .error "NameError: name writer is not defined" := by
      rw [hi]; simp [generator_env_branch, h]
    simp [runGenerator, hb]
  · intro h
    simp [generator_env_branch, h]

/-- C10 witness: an environment with CC set dies with the `NameError`; one
without any of the six keys proceeds. -/
theorem env_branch_nameerror_c10_witness :
    generator_env_branch [("CC", "clang"), ("HOME", "/home/u")] =
      .error "NameError: name writer is not defined" ∧
    generator_env_branch [("HOME", "/home/u")] = .ok () :=
  ⟨((env_branch_nameerror_c10 [("CC", "clang"), ("HOME", "/home/u")]).2.1 (by decide)).1,
   (env_branch_nameerror_c10 [("HOME", "/home/u")]).2.2 (by decide)⟩

/-- C4 amended, witness: two architectures yield two per-arch nodes, and
the ios default architecture list is non-empty. -/
theorem apple_fusion_c4_witness :
    (build_sources_archnodes ⟨[]⟩ ["arm7", "arm64"] (fun _ => []) (fun a => a)).1.length = 2 ∧
    initialize_default_archs "ios" "" ≠ [] := by
  have h := apple_fusion_c4 ⟨[]⟩ ["arm7", "arm64"] (fun _ => []) (fun a => a)
    "bin/macos/debug" "binfile"
  exact ⟨h.1, h.2.2 "ios" (by decide) ""⟩
